import Mathlib

/-!
Shallow embedding of the booking subsystem of the Vehicle Rental System
backend (Express + PostgreSQL).  The booking services module
(bookings.services.ts) and the booking controllers module
(bookings.controllers.ts) are modelled as pure functions over an explicit
store; the PostgreSQL tables `users`, `vehicles` and `bookings` become
lists of records, SQL `DATE` values and JavaScript `Date.getTime()`
timestamps become natural numbers (milliseconds), and thrown errors
become `Except.error` with the thrown message.
-/

/-- A row of the `users` table (the fields the booking subsystem reads). -/
structure User where
  uid : Nat
  name : String
  email : String
  role : String
deriving Repr, DecidableEq

/-- A row of the `vehicles` table (the fields the booking subsystem reads). -/
structure Vehicle where
  vid : Nat
  vehicle_name : String
  vehicle_type : String
  registration_number : String
  daily_rent_price : Nat
  availability_status : String
deriving Repr, DecidableEq

/-- A row of the `bookings` table. -/
structure Booking where
  bid : Nat
  customer_id : Nat
  vehicle_id : Nat
  rent_start_date : Nat
  rent_end_date : Nat
  total_price : Nat
  status : String
deriving Repr, DecidableEq

/-- The database state seen by the booking subsystem.  `nextId` models the
serial primary key assigned to the next inserted booking. -/
structure Store where
  users : List User
  vehicles : List Vehicle
  bookings : List Booking
  nextId : Nat
deriving Repr, DecidableEq

/-- Milliseconds per day, the divisor in the JavaScript price computation
`Math.ceil((end.getTime() - start.getTime()) / (1000 * 60 * 60 * 24))`. -/
def msPerDay : Nat := 86400000

/-- `SELECT * FROM users WHERE id = $1` (first row). -/
def findUser (uid : Nat) (users : List User) : Option User :=
  users.find? (fun u => u.uid == uid)

/-- `SELECT * FROM vehicles WHERE id = $1` (first row). -/
def findVehicle (vid : Nat) (vehicles : List Vehicle) : Option Vehicle :=
  vehicles.find? (fun v => v.vid == vid)

/-- `SELECT * FROM bookings WHERE id = $1` (first row). -/
def findBooking (bid : Nat) (bookings : List Booking) : Option Booking :=
  bookings.find? (fun b => b.bid == bid)

/-- `UPDATE vehicles SET availability_status = st WHERE id = vid`. -/
def setVehicleAvailability (vid : Nat) (st : String) (vehicles : List Vehicle) : List Vehicle :=
  vehicles.map (fun v => if v.vid == vid then { v with availability_status := st } else v)

/-- `UPDATE bookings SET status = st WHERE id = bid`. -/
def setBookingStatus (bid : Nat) (st : String) (bookings : List Booking) : List Booking :=
  bookings.map (fun b => if b.bid == bid then { b with status := st } else b)

/-- The `WHERE status = 'active' AND rent_end_date < CURRENT_DATE` condition
of the expiry sweep. -/
def isExpiredActive (today : Nat) (b : Booking) : Bool :=
  b.status == "active" && decide (b.rent_end_date < today)

/-- The request body of `POST /api/v1/bookings` (fields the code reads; a
field absent from the JSON body is `none`). -/
structure CreateData where
  customer_id : Option Nat
  vehicle_id : Option Nat
  rent_start_date : Option Nat
  rent_end_date : Option Nat
  total_price : Option Nat
deriving Repr, DecidableEq

/-- The request body of `PUT /api/v1/bookings/:bookingId` (the service reads
only `status`; the other fields model extra JSON the client may send). -/
structure UpdateData where
  status : Option String
  customer_id : Option Nat
  vehicle_id : Option Nat
  rent_start_date : Option Nat
  rent_end_date : Option Nat
  total_price : Option Nat
deriving Repr, DecidableEq

/-- A row of the admin listing query in `getAllBookings`, with the
`json_build_object` customer and vehicle snapshots flattened. -/
structure AdminRow where
  id : Nat
  customer_id : Nat
  vehicle_id : Nat
  rent_start_date : Nat
  rent_end_date : Nat
  total_price : Nat
  status : String
  customer_name : String
  customer_email : String
  vehicle_name : String
  registration_number : String
deriving Repr, DecidableEq

/-- A row of the customer listing query in `getBookingsByCustomer`. -/
structure CustomerRow where
  id : Nat
  vehicle_id : Nat
  rent_start_date : Nat
  rent_end_date : Nat
  total_price : Nat
  status : String
  vehicle_name : String
  registration_number : String
  vehicle_type : String
deriving Repr, DecidableEq

/-- The row built by the `SELECT ... JOIN users ... JOIN vehicles` of
`getAllBookings` for booking `b`, its customer `u` and its vehicle `v`. -/
def adminRowOf (b : Booking) (u : User) (v : Vehicle) : AdminRow :=
  { id := b.bid, customer_id := b.customer_id, vehicle_id := b.vehicle_id,
    rent_start_date := b.rent_start_date, rent_end_date := b.rent_end_date,
    total_price := b.total_price, status := b.status,
    customer_name := u.name, customer_email := u.email,
    vehicle_name := v.vehicle_name, registration_number := v.registration_number }

/-- The row built by the `SELECT ... JOIN vehicles` of
`getBookingsByCustomer` for booking `b` and its vehicle `v`. -/
def customerRowOf (b : Booking) (v : Vehicle) : CustomerRow :=
  { id := b.bid, vehicle_id := b.vehicle_id,
    rent_start_date := b.rent_start_date, rent_end_date := b.rent_end_date,
    total_price := b.total_price, status := b.status,
    vehicle_name := v.vehicle_name, registration_number := v.registration_number,
    vehicle_type := v.vehicle_type }

namespace bookingServices

/-- `autoReturnExpiredBookings` from bookings.services.ts:
`UPDATE bookings SET status = 'returned' WHERE status = 'active' AND
rent_end_date < CURRENT_DATE RETURNING vehicle_id`, then a loop setting each
returned vehicle id to `'available'`.  `today` models `CURRENT_DATE`. -/
def autoReturnExpiredBookings (today : Nat) (s : Store) : Store :=
  let expiredVehicleIds :=
    (s.bookings.filter (isExpiredActive today)).map (fun b => b.vehicle_id)
  let bookings :=
    s.bookings.map (fun b =>
      if isExpiredActive today b then { b with status := "returned" } else b)
  let vehicles :=
    expiredVehicleIds.foldl (fun vs vid => setVehicleAvailability vid "available" vs) s.vehicles
  { s with bookings := bookings, vehicles := vehicles }

/-- `createBookings` from bookings.services.ts.  The checks appear in source
order: required fields, `end <= start`, vehicle existence, availability,
the overlap query, then the insert and the vehicle update.  The overlap
query keeps rows satisfying
`vehicle_id = $1 AND status = 'active' AND NOT ($3 <= rent_start_date OR $2 >= rent_end_date)`
with `$2` the requested end date and `$3` the requested start date. -/
def createBookings (data : CreateData) (s : Store) : Except String (Booking × Store) :=
  match data.customer_id, data.vehicle_id, data.rent_start_date, data.rent_end_date with
  | some customer_id, some vehicle_id, some rent_start_date, some rent_end_date =>
    if rent_end_date ≤ rent_start_date then
      Except.error "Invalid rental dates"
    else
      match findVehicle vehicle_id s.vehicles with
      | none => Except.error "Vehicle not found"
      | some vehicle =>
        if vehicle.availability_status != "available" then
          Except.error "Vehicle is not available"
        else if s.bookings.any (fun b =>
            b.vehicle_id == vehicle_id && b.status == "active" &&
            !(decide (rent_start_date ≤ b.rent_start_date) ||
              decide (b.rent_end_date ≤ rent_end_date))) then
          Except.error "Vehicle already booked for selected dates"
        else
          let days := (rent_end_date - rent_start_date + (msPerDay - 1)) / msPerDay
          let total_price := days * vehicle.daily_rent_price
          let booking : Booking :=
            { bid := s.nextId, customer_id := customer_id, vehicle_id := vehicle_id,
              rent_start_date := rent_start_date, rent_end_date := rent_end_date,
              total_price := total_price, status := "active" }
          Except.ok (booking,
            { s with bookings := s.bookings ++ [booking],
                     vehicles := setVehicleAvailability vehicle_id "booked" s.vehicles,
                     nextId := s.nextId + 1 })
  | _, _, _, _ => Except.error "Missing required fields"

/-- `getAllBookings` from bookings.services.ts: run the expiry sweep, then
join every booking with its user and vehicle rows, ordered by id
descending (`ORDER BY b.id DESC`). -/
def getAllBookings (today : Nat) (s : Store) : List AdminRow × Store :=
  let s1 := autoReturnExpiredBookings today s
  let rows :=
    (s1.bookings.filterMap (fun b =>
      match findUser b.customer_id s1.users, findVehicle b.vehicle_id s1.vehicles with
      | some u, some v => some (adminRowOf b u v)
      | _, _ => none)).mergeSort (fun r1 r2 => decide (r2.id ≤ r1.id))
  (rows, s1)

/-- `getBookingsByCustomer` from bookings.services.ts: run the expiry sweep,
then join the bookings with `customer_id = $1` with their vehicle rows,
ordered by id descending. -/
def getBookingsByCustomer (customerId : Nat) (today : Nat) (s : Store) : List CustomerRow × Store :=
  let s1 := autoReturnExpiredBookings today s
  let rows :=
    ((s1.bookings.filter (fun b => b.customer_id == customerId)).filterMap (fun b =>
      match findVehicle b.vehicle_id s1.vehicles with
      | some v => some (customerRowOf b v)
      | none => none)).mergeSort (fun r1 r2 => decide (r2.id ≤ r1.id))
  (rows, s1)

/-- `getBookingById` from bookings.services.ts. -/
def getBookingById (bookingId : Nat) (s : Store) : Option Booking :=
  findBooking bookingId s.bookings

/-- `updateBookings` from bookings.services.ts.  `today` models `new Date()`
compared against the stored start date; the customer branch requires
`data.status === 'cancelled'` and rejects when `today >= startDate`, the
admin branch requires `data.status === 'returned'`; each success updates the
booking status and sets the vehicle of the fetched booking to
`'available'`. -/
def updateBookings (data : UpdateData) (bookingId : Nat) (role : String) (today : Nat)
    (s : Store) : Except String (Booking × Store) :=
  match findBooking bookingId s.bookings with
  | none => Except.error "Booking not found"
  | some booking =>
    if role == "customer" then
      if data.status != some "cancelled" then
        Except.error "Customer can only cancel booking"
      else if booking.rent_start_date ≤ today then
        Except.error "Cannot cancel after rental has started"
      else
        Except.ok ({ booking with status := "cancelled" },
          { s with bookings := setBookingStatus bookingId "cancelled" s.bookings,
                   vehicles := setVehicleAvailability booking.vehicle_id "available" s.vehicles })
    else if role == "admin" then
      if data.status != some "returned" then
        Except.error "Admin can only mark booking as returned"
      else
        Except.ok ({ booking with status := "returned" },
          { s with bookings := setBookingStatus bookingId "returned" s.bookings,
                   vehicles := setVehicleAvailability booking.vehicle_id "available" s.vehicles })
    else
      Except.error "Invalid operation"

end bookingServices

/-- The JSON response shape of the booking controllers, with the HTTP code. -/
structure ApiResponse (α : Type) where
  statusCode : Nat
  success : Bool
  message : String
  data : Option α
deriving Repr, DecidableEq

/-- The payload of `GET /api/v1/bookings`: admin rows or customer rows. -/
inductive BookingsData where
  | adminRows : List AdminRow → BookingsData
  | customerRows : List CustomerRow → BookingsData
deriving Repr, DecidableEq

namespace bookingsControllers

/-- `createBookings` from bookings.controllers.ts: 401 without an identity;
otherwise call the service with the body, overriding `customer_id` with the
requester id when the requester role is `customer`; 201 with the created
row on success, 400 with the thrown message on failure. -/
def createBookings (user : Option User) (body : CreateData) (s : Store) :
    ApiResponse Booking × Store :=
  match user with
  | none => ({ statusCode := 401, success := false, message := "Unauthorized", data := none }, s)
  | some u =>
    let payload :=
      { body with customer_id := if u.role == "customer" then some u.uid else body.customer_id }
    match bookingServices.createBookings payload s with
    | Except.ok (b, s1) =>
      ({ statusCode := 201, success := true, message := "Booking created successfully",
         data := some b }, s1)
    | Except.error msg =>
      ({ statusCode := 400, success := false, message := msg, data := none }, s)

/-- `getBookings` from bookings.controllers.ts: 401 without an identity;
admins get `getAllBookings`, everyone else `getBookingsByCustomer` on their
own id. -/
def getBookings (user : Option User) (today : Nat) (s : Store) :
    ApiResponse BookingsData × Store :=
  match user with
  | none => ({ statusCode := 401, success := false, message := "Unauthorized", data := none }, s)
  | some u =>
    if u.role == "admin" then
      let out := bookingServices.getAllBookings today s
      ({ statusCode := 200, success := true, message := "Bookings fetched successfully",
         data := some (BookingsData.adminRows out.1) }, out.2)
    else
      let out := bookingServices.getBookingsByCustomer u.uid today s
      ({ statusCode := 200, success := true, message := "Bookings fetched successfully",
         data := some (BookingsData.customerRows out.1) }, out.2)

/-- `updateBookings` from bookings.controllers.ts: 401 without an identity,
404 when the booking does not exist, 403 when a customer targets a booking
of another customer, otherwise the service result (200 on success, 400 with
the thrown message on failure). -/
def updateBookings (user : Option User) (body : UpdateData) (bookingId : Nat) (today : Nat)
    (s : Store) : ApiResponse Booking × Store :=
  match user with
  | none => ({ statusCode := 401, success := false, message := "Unauthorized", data := none }, s)
  | some u =>
    match bookingServices.getBookingById bookingId s with
    | none => ({ statusCode := 404, success := false, message := "Booking not found",
                 data := none }, s)
    | some booking =>
      if u.role == "customer" && booking.customer_id != u.uid then
        ({ statusCode := 403, success := false,
           message := "Forbidden: You can only update your own booking", data := none }, s)
      else
        match bookingServices.updateBookings body bookingId u.role today s with
        | Except.ok (b, s1) =>
          ({ statusCode := 200, success := true, message := "Booking updated successfully",
             data := some b }, s1)
        | Except.error msg =>
          ({ statusCode := 400, success := false, message := msg, data := none }, s)

end bookingsControllers

/-- The overlap relation as the specification defines it: two intervals
[s1,e1) and [s2,e2) overlap unless e1 ≤ s2 or e2 ≤ s1. -/
def specOverlap (s1 e1 s2 e2 : Nat) : Prop :=
  ¬ (e1 ≤ s2 ∨ e2 ≤ s1)

instance (s1 e1 s2 e2 : Nat) : Decidable (specOverlap s1 e1 s2 e2) := by
  unfold specOverlap; infer_instance

/-- Number of bookings with status `active` referencing vehicle `vid`. -/
def activeCountFor (vid : Nat) (bookings : List Booking) : Nat :=
  (bookings.filter (fun b => b.vehicle_id == vid && b.status == "active")).length

/-- The availability invariant of the data model: exactly one active booking
for a vehicle implies `booked`, zero implies `available`. -/
def availabilityInvariant (s : Store) : Prop :=
  ∀ v ∈ s.vehicles,
    (activeCountFor v.vid s.bookings = 1 → v.availability_status = "booked") ∧
    (activeCountFor v.vid s.bookings = 0 → v.availability_status = "available")

/-- Every vehicle is referenced by at most one active booking. -/
def atMostOneActive (s : Store) : Prop :=
  ∀ v ∈ s.vehicles, activeCountFor v.vid s.bookings ≤ 1

/-- Referential integrity of the booking table against users and vehicles. -/
def refsResolve (s : Store) : Prop :=
  ∀ b ∈ s.bookings,
    (findUser b.customer_id s.users).isSome = true ∧
    (findVehicle b.vehicle_id s.vehicles).isSome = true

instance (s : Store) : Decidable (availabilityInvariant s) := by
  unfold availabilityInvariant; infer_instance

instance (s : Store) : Decidable (atMostOneActive s) := by
  unfold atMostOneActive; infer_instance

instance (s : Store) : Decidable (refsResolve s) := by
  unfold refsResolve; infer_instance

/-- Pricing contract of a successful create: status `active`, total price is
`d * daily_rent_price` where `d` is the number of days between the dates
with partial days rounded up (characterised by the two bounds), and the
client supplied `total_price` field never influences the outcome. -/
def createPriceSpec (data : CreateData) (s : Store) (b : Booking) (s1 : Store) : Prop :=
  b.status = "active" ∧
  ∃ rs re vehicle d,
    data.rent_start_date = some rs ∧ data.rent_end_date = some re ∧ rs < re ∧
    findVehicle b.vehicle_id s.vehicles = some vehicle ∧
    b.total_price = d * vehicle.daily_rent_price ∧
    re - rs ≤ d * msPerDay ∧ d * msPerDay < (re - rs) + msPerDay ∧
    ∀ tp, bookingServices.createBookings { data with total_price := tp } s = Except.ok (b, s1)

/-- Success characterisation of the status update operation on an existing
booking `b`, together with the Forbidden rule for foreign customers. -/
def updateSuccessSpec (u : User) (body : UpdateData) (bid today : Nat) (s : Store)
    (b : Booking) : Prop :=
  ((bookingsControllers.updateBookings (some u) body bid today s).1.statusCode = 200 ↔
    ((u.role = "admin" ∧ body.status = some "returned") ∨
     (u.role = "customer" ∧ b.customer_id = u.uid ∧ body.status = some "cancelled" ∧
       today < b.rent_start_date))) ∧
  (u.role = "customer" → b.customer_id ≠ u.uid →
    (bookingsControllers.updateBookings (some u) body bid today s).1 =
      { statusCode := 403, success := false,
        message := "Forbidden: You can only update your own booking", data := none })

/-- Frame property of a successful status update: only the target booking
status and the referenced vehicle availability change, the updated record is
returned, and every request field other than `status` is ignored. -/
def updateFrameSpec (u : User) (body : UpdateData) (bid today : Nat) (s : Store) : Prop :=
  ∃ b st, findBooking bid s.bookings = some b ∧ body.status = some st ∧
    (st = "cancelled" ∨ st = "returned") ∧
    (bookingsControllers.updateBookings (some u) body bid today s).1.data =
      some { b with status := st } ∧
    (bookingsControllers.updateBookings (some u) body bid today s).2.bookings =
      setBookingStatus bid st s.bookings ∧
    (bookingsControllers.updateBookings (some u) body bid today s).2.vehicles =
      setVehicleAvailability b.vehicle_id "available" s.vehicles ∧
    (bookingsControllers.updateBookings (some u) body bid today s).2.users = s.users ∧
    (bookingsControllers.updateBookings (some u) body bid today s).2.nextId = s.nextId ∧
    ∀ body2 : UpdateData, body2.status = body.status →
      bookingsControllers.updateBookings (some u) body2 bid today s =
        bookingsControllers.updateBookings (some u) body bid today s

/-- Contract of the listing operation: the expiry sweep runs first and the
result is computed over the swept store; an admin gets every booking joined
with its customer and vehicle snapshots; a customer gets exactly the rows of
bookings whose customer reference is their own id, joined with the vehicle
snapshot; both orderings are by descending booking id. -/
def listSpec (u : User) (today : Nat) (s : Store) : Prop :=
  let out := bookingsControllers.getBookings (some u) today s
  let s1 := bookingServices.autoReturnExpiredBookings today s
  out.2 = s1 ∧
  (u.role = "admin" → ∃ rows, out.1.data = some (BookingsData.adminRows rows) ∧
    List.Pairwise (fun r1 r2 => r2.id ≤ r1.id) rows ∧
    (∀ r, r ∈ rows ↔ ∃ b ∈ s1.bookings, ∃ usr veh,
      findUser b.customer_id s1.users = some usr ∧
      findVehicle b.vehicle_id s1.vehicles = some veh ∧ r = adminRowOf b usr veh) ∧
    (∀ b ∈ s1.bookings, ∃ usr veh,
      findUser b.customer_id s1.users = some usr ∧
      findVehicle b.vehicle_id s1.vehicles = some veh ∧ adminRowOf b usr veh ∈ rows)) ∧
  (u.role = "customer" → ∃ rows, out.1.data = some (BookingsData.customerRows rows) ∧
    List.Pairwise (fun r1 r2 => r2.id ≤ r1.id) rows ∧
    (∀ r, r ∈ rows ↔ ∃ b ∈ s1.bookings, b.customer_id = u.uid ∧ ∃ veh,
      findVehicle b.vehicle_id s1.vehicles = some veh ∧ r = customerRowOf b veh) ∧
    (∀ b ∈ s1.bookings, b.customer_id = u.uid → ∃ veh,
      findVehicle b.vehicle_id s1.vehicles = some veh ∧ customerRowOf b veh ∈ rows))

/-! Concrete fixtures used by witnesses and counterexamples. -/

/-- `n` days after the epoch, in milliseconds. -/
def day (n : Nat) : Nat := n * msPerDay

/-- A concrete admin user. -/
def adminConc : User :=
  { uid := 1, name := "Admin", email := "admin@example.com", role := "admin" }

/-- A concrete customer. -/
def customerConc : User :=
  { uid := 2, name := "Customer", email := "customer@example.com", role := "customer" }

/-- A second concrete customer. -/
def otherCustomerConc : User :=
  { uid := 3, name := "Other", email := "other@example.com", role := "customer" }

/-- A concrete available vehicle with daily rate 50. -/
def vehicleC1 : Vehicle :=
  { vid := 1, vehicle_name := "Toyota Axio", vehicle_type := "car",
    registration_number := "DHK-1001", daily_rent_price := 50,
    availability_status := "available" }

/-- An active booking of vehicle 1 by customer 2 over days [1, 3). -/
def bookingC1 : Booking :=
  { bid := 1, customer_id := 2, vehicle_id := 1, rent_start_date := day 1,
    rent_end_date := day 3, total_price := 100, status := "active" }

/-- Store with one available vehicle and one active booking over days [1, 3). -/
def storeC1 : Store :=
  { users := [adminConc, customerConc, otherCustomerConc], vehicles := [vehicleC1],
    bookings := [bookingC1], nextId := 2 }

/-- Same store with the vehicle flagged `booked`, as it is right after the
first create of the scenario in the specification. -/
def storeC1booked : Store :=
  { storeC1 with vehicles := [{ vehicleC1 with availability_status := "booked" }] }

/-- Create request for vehicle 1 over days [2, 4) with no customer id. -/
def reqC1 : CreateData :=
  { customer_id := none, vehicle_id := some 1, rent_start_date := some (day 2),
    rent_end_date := some (day 4), total_price := none }

/-- Create request for vehicle 1 over days [4, 6) with no customer id. -/
def reqC8 : CreateData :=
  { customer_id := none, vehicle_id := some 1, rent_start_date := some (day 4),
    rent_end_date := some (day 6), total_price := none }

/-- Create request for vehicle 1 over days [4, 6) by customer 2 with a bogus
client supplied `total_price`. -/
def reqC4 : CreateData := { reqC8 with customer_id := some 2, total_price := some 999 }

/-- The booking created from `reqC4` on `storeC1`: price 2 * 50, not 999. -/
def bC4 : Booking :=
  { bid := 2, customer_id := 2, vehicle_id := 1, rent_start_date := day 4,
    rent_end_date := day 6, total_price := 100, status := "active" }

/-- The store after creating `bC4` on `storeC1`. -/
def storeC4after : Store :=
  { storeC1 with
    bookings := [bookingC1, bC4],
    vehicles := [{ vehicleC1 with availability_status := "booked" }],
    nextId := 3 }

/-- An active booking of vehicle 1 by customer 2 over days [5, 9). -/
def bookingActiveC3 : Booking :=
  { bid := 1, customer_id := 2, vehicle_id := 1, rent_start_date := day 5,
    rent_end_date := day 9, total_price := 200, status := "active" }

/-- A cancelled booking of vehicle 1 by customer 3 over days [1, 2). -/
def bookingCancelledC3 : Booking :=
  { bid := 2, customer_id := 3, vehicle_id := 1, rent_start_date := day 1,
    rent_end_date := day 2, total_price := 50, status := "cancelled" }

/-- Store satisfying the availability invariant: vehicle 1 is `booked` and
carries one active booking plus one cancelled booking. -/
def storeC3 : Store :=
  { users := [adminConc, customerConc, otherCustomerConc],
    vehicles := [{ vehicleC1 with availability_status := "booked" }],
    bookings := [bookingActiveC3, bookingCancelledC3], nextId := 3 }

/-- Update request body asking for status `returned`. -/
def updReturned : UpdateData :=
  { status := some "returned", customer_id := none, vehicle_id := none,
    rent_start_date := none, rent_end_date := none, total_price := none }

/-- Update request body asking for status `cancelled`. -/
def updCancelled : UpdateData := { updReturned with status := some "cancelled" }

/-- Primary-key integrity of the booking table: distinct rows carry
distinct ids. -/
def uniqueBids (s : Store) : Prop :=
  List.Pairwise (fun a c => a.bid ≠ c.bid) s.bookings

instance (s : Store) : Decidable (uniqueBids s) := by
  unfold uniqueBids; infer_instance

/-- The per-row effect of the sweep `UPDATE` on a booking. -/
def returnIfExpired (today : Nat) (b : Booking) : Booking :=
  if isExpiredActive today b then { b with status := "returned" } else b

/-- The `RETURNING vehicle_id` rows of the sweep `UPDATE` on store `s`. -/
def expiredVehicleIdsOf (today : Nat) (s : Store) : List Nat :=
  (s.bookings.filter (isExpiredActive today)).map (fun b => b.vehicle_id)

/-! Helper lemmas. -/

/-- Bounds characterising the rounded-up day count `(a + (m - 1)) / m`. -/
theorem ceil_div_bounds (a m : Nat) (hm : 0 < m) :
    a ≤ (a + (m - 1)) / m * m ∧ (a + (m - 1)) / m * m < a + m := by
  constructor
  · by_contra hlt
    push_neg at hlt
    have h1 : ((a + (m - 1)) / m + 1) * m ≤ a + (m - 1) := by
      have h2 : ((a + (m - 1)) / m + 1) * m = (a + (m - 1)) / m * m + m :=
        Nat.succ_mul _ _
      omega
    have h3 := (Nat.le_div_iff_mul_le hm).2 h1
    omega
  · have h4 := Nat.div_mul_le_self (a + (m - 1)) m
    omega

/-- Inversion of a successful `createBookings`: every check passed and the
insert and vehicle update happened exactly as written in the service. -/
theorem createBookings_ok_inv (data : CreateData) (s : Store) (b : Booking) (s1 : Store)
    (h : bookingServices.createBookings data s = Except.ok (b, s1)) :
    ∃ cid vid rs re vehicle,
      data.customer_id = some cid ∧ data.vehicle_id = some vid ∧
      data.rent_start_date = some rs ∧ data.rent_end_date = some re ∧
      rs < re ∧
      findVehicle vid s.vehicles = some vehicle ∧
      vehicle.availability_status = "available" ∧
      b = { bid := s.nextId, customer_id := cid, vehicle_id := vid,
            rent_start_date := rs, rent_end_date := re,
            total_price := (re - rs + (msPerDay - 1)) / msPerDay * vehicle.daily_rent_price,
            status := "active" } ∧
      s1 = { s with bookings := s.bookings ++ [b],
                    vehicles := setVehicleAvailability vid "booked" s.vehicles,
                    nextId := s.nextId + 1 } := by
  rcases data with ⟨c, v, rs, re, t⟩
  cases c with
  | none => simp [bookingServices.createBookings] at h
  | some cid =>
    cases v with
    | none => simp [bookingServices.createBookings] at h
    | some vid =>
      cases rs with
      | none => simp [bookingServices.createBookings] at h
      | some rs =>
        cases re with
        | none => simp [bookingServices.createBookings] at h
        | some re =>
          simp only [bookingServices.createBookings] at h
          split at h
          next hend => simp at h
          next hend =>
            split at h
            next => simp at h
            next vehicle hveh =>
              split at h
              next => simp at h
              next havail =>
                split at h
                next => simp at h
                next hover =>
                  simp only [Except.ok.injEq, Prod.mk.injEq] at h
                  obtain ⟨hb, hs1⟩ := h
                  refine ⟨cid, vid, rs, re, vehicle, rfl, rfl, rfl, rfl, by omega,
                    hveh, ?_, hb.symm, ?_⟩
                  · simpa using havail
                  · rw [← hs1, ← hb]

/-! Claim theorems. -/

/-- Claim C1 (code bug): the specification demands a `DateOverlap` failure
exactly when an existing active booking overlaps the requested interval.
In `storeC1`, booking 1 is an active booking of vehicle 1 over days [1, 3)
and the vehicle is `available`; the request for days [2, 4) overlaps it
under the specification overlap relation, yet the create succeeds (201),
because the SQL condition `NOT ($3 <= rent_start_date OR $2 >= rent_end_date)`
flags only requests strictly nested inside an existing booking.  Moreover in
the specification scenario state (`storeC1booked`), the second create fails
with "Vehicle is not available", not with the date-overlap message. -/
theorem claim_C1_code_bug :
    specOverlap (day 2) (day 4) bookingC1.rent_start_date bookingC1.rent_end_date ∧
    bookingC1 ∈ storeC1.bookings ∧ bookingC1.status = "active" ∧
    bookingC1.vehicle_id = 1 ∧ reqC1.vehicle_id = some 1 ∧
    reqC1.rent_start_date = some (day 2) ∧ reqC1.rent_end_date = some (day 4) ∧
    (bookingsControllers.createBookings (some otherCustomerConc) reqC1 storeC1).1.statusCode
      = 201 ∧
    (bookingsControllers.createBookings (some otherCustomerConc) reqC1 storeC1booked).1.message
      = "Vehicle is not available" := by
  decide

/-- Counterexample to claim C2: `updateBookings` never checks the current
status of the booking, so an admin marking the cancelled booking 2 of
`storeC3` as returned succeeds (HTTP 200) even though the booking is in a
terminal state. -/
theorem claim_C2_counterexample :
    findBooking 2 storeC3.bookings = some bookingCancelledC3 ∧
    bookingCancelledC3.status = "cancelled" ∧
    (bookingsControllers.updateBookings (some adminConc) updReturned 2 (day 2)
      storeC3).1.statusCode = 200 := by
  decide

/-- Counterexample to claim C3: `storeC3` satisfies the availability
invariant (vehicle 1 is booked and has exactly one active booking), yet an
admin return of the already-cancelled booking 2 succeeds and flips vehicle 1
to `available` while booking 1 is still active, breaking the invariant. -/
theorem claim_C3_counterexample :
    availabilityInvariant storeC3 ∧
    (bookingsControllers.updateBookings (some adminConc) updReturned 2 (day 2)
      storeC3).1.statusCode = 200 ∧
    ¬ availabilityInvariant
        (bookingsControllers.updateBookings (some adminConc) updReturned 2 (day 2)
          storeC3).2 := by
  decide

/-- Claim C4: a successful create stores status `active` and a total price
equal to the rounded-up day count times the vehicle daily rate, and the
client supplied `total_price` field never influences the result. -/
theorem claim_C4 (data : CreateData) (s : Store) (b : Booking) (s1 : Store)
    (h : bookingServices.createBookings data s = Except.ok (b, s1)) :
    createPriceSpec data s b s1 := by
  obtain ⟨cid, vid, rs, re, vehicle, hc, hv, hrs, hre, hlt, hveh, havail, hb, hs1⟩ :=
    createBookings_ok_inv data s b s1 h
  have hm : 0 < msPerDay := by decide
  obtain ⟨h1, h2⟩ := ceil_div_bounds (re - rs) msPerDay hm
  refine ⟨by rw [hb], rs, re, vehicle, (re - rs + (msPerDay - 1)) / msPerDay,
    hrs, hre, hlt, ?_, by rw [hb], h1, h2, ?_⟩
  · rw [hb]; exact hveh
  · intro tp
    exact h

/-- Witness for C4 at a concrete input: creating on `storeC1` for days
[4, 6) at daily rate 50 stores price 100 although the request carried
`total_price := 999`. -/
theorem claim_C4_witness :
    bookingServices.createBookings reqC4 storeC1 = Except.ok (bC4, storeC4after) ∧
    createPriceSpec reqC4 storeC1 bC4 storeC4after :=
  ⟨rfl, claim_C4 reqC4 storeC1 bC4 storeC4after rfl⟩

/-- Claim C10: a create request from an admin requester that carries no
customer id fails with the validation error "Missing required fields" and
leaves every store unchanged (so no vehicle read and no write can have
influenced the outcome), and the admin id is never substituted. -/
theorem claim_C10 (u : User) (body : CreateData) (s : Store)
    (hrole : u.role = "admin") (hcid : body.customer_id = none) :
    bookingsControllers.createBookings (some u) body s =
      ({ statusCode := 400, success := false, message := "Missing required fields",
         data := none }, s) := by
  have h1 : (u.role == "customer") = false := by rw [hrole]; decide
  simp [bookingsControllers.createBookings, bookingServices.createBookings, h1, hcid]

/-- Witness for C10: the concrete admin with request `reqC8` (no customer
id) on `storeC1`. -/
theorem claim_C10_witness :
    adminConc.role = "admin" ∧ reqC8.customer_id = none ∧
    bookingsControllers.createBookings (some adminConc) reqC8 storeC1 =
      ({ statusCode := 400, success := false, message := "Missing required fields",
         data := none }, storeC1) :=
  ⟨rfl, rfl, claim_C10 adminConc reqC8 storeC1 rfl rfl⟩

/-- Claim C8: for a customer requester the client supplied `customer_id`
body field never influences the outcome (two runs differing only in that
field are identical), and any created booking carries the requester id. -/
theorem claim_C8 (u : User) (body : CreateData) (cid : Option Nat) (s : Store)
    (hrole : u.role = "customer") :
    bookingsControllers.createBookings (some u) { body with customer_id := cid } s =
      bookingsControllers.createBookings (some u) body s ∧
    ∀ r s1 b, bookingsControllers.createBookings (some u) body s = (r, s1) →
      r.data = some b → b.customer_id = u.uid := by
  have h1 : (u.role == "customer") = true := by rw [hrole]; decide
  constructor
  · simp only [bookingsControllers.createBookings, h1, if_true]
  · intro r s1 b heq hdata
    simp only [bookingsControllers.createBookings, h1, if_true] at heq
    split at heq
    next bk st hsvc =>
      obtain ⟨cid2, vid, rs, re, vehicle, hc, -, -, -, -, -, -, hb, -⟩ :=
        createBookings_ok_inv _ _ _ _ hsvc
      injection heq with hEr hEs
      subst hEr
      have hbk : bk = b := by simpa using hdata
      have h3 : bk.customer_id = cid2 := by rw [hb]
      have h4 : u.uid = cid2 := by injection hc
      rw [← hbk, h3]
      exact h4.symm
    next msg hsvc =>
      injection heq with hEr hEs
      subst hEr
      simp at hdata

/-- Witness for C8: changing the client supplied customer id to 99 does not
change the outcome for the concrete customer requester. -/
theorem claim_C8_witness :
    customerConc.role = "customer" ∧
    bookingsControllers.createBookings (some customerConc)
        { reqC8 with customer_id := some 99 } storeC1 =
      bookingsControllers.createBookings (some customerConc) reqC8 storeC1 :=
  ⟨rfl, (claim_C8 customerConc reqC8 (some 99) storeC1 rfl).1⟩

/-- The vehicle loop of the sweep, a left fold of single-vehicle updates,
acts as one map over the vehicle table. -/
theorem foldl_setVehicleAvailability (ids : List Nat) (vs : List Vehicle) :
    ids.foldl (fun acc vid => setVehicleAvailability vid "available" acc) vs =
      vs.map (fun v =>
        if v.vid ∈ ids then { v with availability_status := "available" } else v) := by
  induction ids generalizing vs with
  | nil => simp
  | cons i ids ih =>
    rw [List.foldl_cons, ih]
    unfold setVehicleAvailability
    rw [List.map_map]
    apply List.map_congr_left
    intro v _
    by_cases h : v.vid = i
    · simp [Function.comp, h]
    · simp [Function.comp, h]

/-- The booking table after the sweep is the row-wise update. -/
theorem sweep_bookings (today : Nat) (s : Store) :
    (bookingServices.autoReturnExpiredBookings today s).bookings =
      s.bookings.map (returnIfExpired today) := rfl

/-- The vehicle table after the sweep maps exactly the vehicles appearing in
the `RETURNING` rows to `available`. -/
theorem sweep_vehicles (today : Nat) (s : Store) :
    (bookingServices.autoReturnExpiredBookings today s).vehicles =
      s.vehicles.map (fun v =>
        if v.vid ∈ expiredVehicleIdsOf today s then
          { v with availability_status := "available" } else v) :=
  foldl_setVehicleAvailability _ _

/-- The sweep update row condition, propositionally. -/
theorem isExpiredActive_iff (today : Nat) (b : Booking) :
    isExpiredActive today b = true ↔ b.status = "active" ∧ b.rent_end_date < today := by
  simp [isExpiredActive]

/-- A booking that went through the sweep row update never matches the sweep
condition again. -/
theorem returnIfExpired_not_expired (today : Nat) (b : Booking) :
    isExpiredActive today (returnIfExpired today b) = false := by
  unfold returnIfExpired
  by_cases hc : isExpiredActive today b = true
  · rw [if_pos hc]
    simp [isExpiredActive]
  · rw [if_neg hc]
    simpa using hc

/-- The sweep row update is idempotent on a single booking. -/
theorem returnIfExpired_idem (today : Nat) (b : Booking) :
    returnIfExpired today (returnIfExpired today b) = returnIfExpired today b := by
  conv_lhs => rw [returnIfExpired]
  rw [returnIfExpired_not_expired]
  simp

/-- Membership in the `RETURNING vehicle_id` rows of the sweep. -/
theorem mem_expiredVehicleIdsOf (today : Nat) (s : Store) (x : Nat) :
    x ∈ expiredVehicleIdsOf today s ↔
      ∃ b ∈ s.bookings, b.status = "active" ∧ b.rent_end_date < today ∧ b.vehicle_id = x := by
  unfold expiredVehicleIdsOf
  simp only [List.mem_map, List.mem_filter, isExpiredActive_iff]
  constructor
  · rintro ⟨b, ⟨hb, h1, h2⟩, h3⟩
    exact ⟨b, hb, h1, h2, h3⟩
  · rintro ⟨b, hb, h1, h2, h3⟩
    exact ⟨b, ⟨hb, h1, h2⟩, h3⟩

/-- Claim C6: one sweep invocation keeps the table sizes and the other
store components, turns every active booking whose end date lies strictly
before the current date into `returned` (all of them, not just one), leaves
every other booking untouched, sets every vehicle referenced by such a
booking to `available`, and leaves every other vehicle untouched. -/
theorem claim_C6 (today : Nat) (s : Store) :
    ((bookingServices.autoReturnExpiredBookings today s).bookings.length =
        s.bookings.length ∧
     (bookingServices.autoReturnExpiredBookings today s).vehicles.length =
        s.vehicles.length ∧
     (bookingServices.autoReturnExpiredBookings today s).users = s.users ∧
     (bookingServices.autoReturnExpiredBookings today s).nextId = s.nextId) ∧
    (∀ (i : Nat) (b : Booking), s.bookings[i]? = some b →
      (b.status = "active" → b.rent_end_date < today →
        (bookingServices.autoReturnExpiredBookings today s).bookings[i]? =
          some { b with status := "returned" }) ∧
      (¬ (b.status = "active" ∧ b.rent_end_date < today) →
        (bookingServices.autoReturnExpiredBookings today s).bookings[i]? = some b)) ∧
    (∀ (j : Nat) (v : Vehicle), s.vehicles[j]? = some v →
      ((∃ b ∈ s.bookings, b.status = "active" ∧ b.rent_end_date < today ∧
          b.vehicle_id = v.vid) →
        (bookingServices.autoReturnExpiredBookings today s).vehicles[j]? =
          some { v with availability_status := "available" }) ∧
      (¬ (∃ b ∈ s.bookings, b.status = "active" ∧ b.rent_end_date < today ∧
          b.vehicle_id = v.vid) →
        (bookingServices.autoReturnExpiredBookings today s).vehicles[j]? = some v)) := by
  refine ⟨⟨?_, ?_, rfl, rfl⟩, ?_, ?_⟩
  · rw [sweep_bookings, List.length_map]
  · rw [sweep_vehicles, List.length_map]
  · intro i b hib
    constructor
    · intro hact hexp
      rw [sweep_bookings, List.getElem?_map, hib, Option.map_some']
      have hcond : isExpiredActive today b = true :=
        (isExpiredActive_iff today b).mpr ⟨hact, hexp⟩
      rw [returnIfExpired, if_pos hcond]
    · intro hnot
      rw [sweep_bookings, List.getElem?_map, hib, Option.map_some']
      have hcond : isExpiredActive today b = false := by
        rw [← Bool.not_eq_true]
        intro hx
        exact hnot ((isExpiredActive_iff today b).mp hx)
      rw [returnIfExpired, if_neg (by simp [hcond])]
  · intro j v hjv
    constructor
    · intro hex
      rw [sweep_vehicles, List.getElem?_map, hjv, Option.map_some']
      rw [if_pos ((mem_expiredVehicleIdsOf today s v.vid).mpr hex)]
    · intro hnex
      rw [sweep_vehicles, List.getElem?_map, hjv, Option.map_some']
      rw [if_neg (fun hmem => hnex ((mem_expiredVehicleIdsOf today s v.vid).mp hmem))]

/-- Witness for C6 at a concrete store: at day 10 the active booking over
days [1, 3) in `storeC1` is auto-returned and vehicle 1 becomes available. -/
theorem claim_C6_witness :
    (bookingServices.autoReturnExpiredBookings (day 10) storeC1).bookings[0]? =
      some { bookingC1 with status := "returned" } ∧
    (bookingServices.autoReturnExpiredBookings (day 10) storeC1).vehicles[0]? =
      some { vehicleC1 with availability_status := "available" } :=
  ⟨((claim_C6 (day 10) storeC1).2.1 0 bookingC1 rfl).1 rfl (by decide),
   ((claim_C6 (day 10) storeC1).2.2 0 vehicleC1 rfl).1 ⟨bookingC1, by decide⟩⟩

/-- Claim C7: the sweep is idempotent for a fixed current date: a second
immediate run changes nothing. -/
theorem claim_C7 (today : Nat) (s : Store) :
    bookingServices.autoReturnExpiredBookings today
        (bookingServices.autoReturnExpiredBookings today s) =
      bookingServices.autoReturnExpiredBookings today s := by
  have hfilter :
      (bookingServices.autoReturnExpiredBookings today s).bookings.filter
        (isExpiredActive today) = [] := by
    rw [sweep_bookings, List.filter_map]
    have hcong : ∀ b ∈ s.bookings,
        ((isExpiredActive today) ∘ (returnIfExpired today)) b = (fun _ => false) b := by
      intro b _
      exact returnIfExpired_not_expired today b
    rw [List.filter_congr hcong]
    simp
  have hbk :
      (bookingServices.autoReturnExpiredBookings today
          (bookingServices.autoReturnExpiredBookings today s)).bookings =
        (bookingServices.autoReturnExpiredBookings today s).bookings := by
    rw [sweep_bookings, sweep_bookings, List.map_map]
    apply List.map_congr_left
    intro b _
    exact returnIfExpired_idem today b
  have hveh :
      (bookingServices.autoReturnExpiredBookings today
          (bookingServices.autoReturnExpiredBookings today s)).vehicles =
        (bookingServices.autoReturnExpiredBookings today s).vehicles := by
    rw [sweep_vehicles]
    have hids : expiredVehicleIdsOf today
        (bookingServices.autoReturnExpiredBookings today s) = [] := by
      unfold expiredVehicleIdsOf
      rw [hfilter]
      rfl
    rw [hids]
    simp
  have husers :
      (bookingServices.autoReturnExpiredBookings today
          (bookingServices.autoReturnExpiredBookings today s)).users =
        (bookingServices.autoReturnExpiredBookings today s).users := rfl
  have hnext :
      (bookingServices.autoReturnExpiredBookings today
          (bookingServices.autoReturnExpiredBookings today s)).nextId =
        (bookingServices.autoReturnExpiredBookings today s).nextId := rfl
  cases hs : bookingServices.autoReturnExpiredBookings today s
  rw [hs] at hbk hveh husers hnext
  rw [← hs] at hbk hveh husers hnext ⊢
  calc bookingServices.autoReturnExpiredBookings today
        (bookingServices.autoReturnExpiredBookings today s)
      = { users := (bookingServices.autoReturnExpiredBookings today
            (bookingServices.autoReturnExpiredBookings today s)).users,
          vehicles := (bookingServices.autoReturnExpiredBookings today
            (bookingServices.autoReturnExpiredBookings today s)).vehicles,
          bookings := (bookingServices.autoReturnExpiredBookings today
            (bookingServices.autoReturnExpiredBookings today s)).bookings,
          nextId := (bookingServices.autoReturnExpiredBookings today
            (bookingServices.autoReturnExpiredBookings today s)).nextId } := rfl
    _ = { users := (bookingServices.autoReturnExpiredBookings today s).users,
          vehicles := (bookingServices.autoReturnExpiredBookings today s).vehicles,
          bookings := (bookingServices.autoReturnExpiredBookings today s).bookings,
          nextId := (bookingServices.autoReturnExpiredBookings today s).nextId } := by
        rw [hbk, hveh, husers, hnext]
    _ = bookingServices.autoReturnExpiredBookings today s := rfl

/-- A successful booking lookup yields a member row carrying the id. -/
theorem findBooking_some (bid : Nat) (l : List Booking) (b : Booking)
    (h : findBooking bid l = some b) : b ∈ l ∧ b.bid = bid := by
  unfold findBooking at h
  refine ⟨List.mem_of_find?_eq_some h, ?_⟩
  have := List.find?_some h
  simpa using this

/-- A successful vehicle lookup yields a member row carrying the id. -/
theorem findVehicle_some (vid : Nat) (l : List Vehicle) (v : Vehicle)
    (h : findVehicle vid l = some v) : v ∈ l ∧ v.vid = vid := by
  unfold findVehicle at h
  refine ⟨List.mem_of_find?_eq_some h, ?_⟩
  have := List.find?_some h
  simpa using this

/-- Inversion of a successful `updateBookings` service call. -/
theorem updateBookings_ok_inv (data : UpdateData) (bid : Nat) (role : String) (today : Nat)
    (s : Store) (b1 : Booking) (s1 : Store)
    (h : bookingServices.updateBookings data bid role today s = Except.ok (b1, s1)) :
    ∃ booking, findBooking bid s.bookings = some booking ∧
      ((role = "customer" ∧ data.status = some "cancelled" ∧
          today < booking.rent_start_date ∧
          b1 = { booking with status := "cancelled" } ∧
          s1 = { s with bookings := setBookingStatus bid "cancelled" s.bookings,
                        vehicles := setVehicleAvailability booking.vehicle_id "available"
                          s.vehicles }) ∨
       (role = "admin" ∧ data.status = some "returned" ∧
          b1 = { booking with status := "returned" } ∧
          s1 = { s with bookings := setBookingStatus bid "returned" s.bookings,
                        vehicles := setVehicleAvailability booking.vehicle_id "available"
                          s.vehicles })) := by
  unfold bookingServices.updateBookings at h
  split at h
  next => simp at h
  next booking hf =>
    refine ⟨booking, hf, ?_⟩
    split at h
    next hc =>
      split at h
      next => simp at h
      next hst =>
        split at h
        next => simp at h
        next hdt =>
          simp only [Except.ok.injEq, Prod.mk.injEq] at h
          refine Or.inl ⟨by simpa using hc, by simpa using hst, by omega, h.1.symm, h.2.symm⟩
    next hc =>
      split at h
      next ha =>
        split at h
        next => simp at h
        next hst =>
          simp only [Except.ok.injEq, Prod.mk.injEq] at h
          exact Or.inr ⟨by simpa using ha, by simpa using hst, h.1.symm, h.2.symm⟩
      next ha => simp at h

/-- Claim C2 (amended): on an existing booking, the update succeeds exactly
when the requester is an admin asking for `returned`, or the owning customer
asking for `cancelled` strictly before the rental start date; the current
status of the booking is never examined, so terminal states are not
protected.  A foreign customer always receives the Forbidden response. -/
theorem claim_C2_amended (u : User) (body : UpdateData) (bid today : Nat) (s : Store)
    (b : Booking) (hfind : findBooking bid s.bookings = some b) :
    updateSuccessSpec u body bid today s b := by
  constructor
  · by_cases hc : u.role = "customer"
    · by_cases hown : b.customer_id = u.uid
      · by_cases hst : body.status = some "cancelled"
        · by_cases hdt : b.rent_start_date ≤ today
          · have hdt2 : ¬ today < b.rent_start_date := by omega
            simp [bookingsControllers.updateBookings, bookingServices.getBookingById,
              bookingServices.updateBookings, hfind, hc, hown, hst, hdt, hdt2]
          · have hdt2 : today < b.rent_start_date := by omega
            simp [bookingsControllers.updateBookings, bookingServices.getBookingById,
              bookingServices.updateBookings, hfind, hc, hown, hst, hdt, hdt2]
        · simp [bookingsControllers.updateBookings, bookingServices.getBookingById,
            bookingServices.updateBookings, hfind, hc, hown, hst]
      · simp [bookingsControllers.updateBookings, bookingServices.getBookingById,
          bookingServices.updateBookings, hfind, hc, hown]
    · by_cases ha : u.role = "admin"
      · by_cases hst : body.status = some "returned"
        · simp [bookingsControllers.updateBookings, bookingServices.getBookingById,
            bookingServices.updateBookings, hfind, hc, ha, hst]
        · simp [bookingsControllers.updateBookings, bookingServices.getBookingById,
            bookingServices.updateBookings, hfind, hc, ha, hst]
      · simp [bookingsControllers.updateBookings, bookingServices.getBookingById,
          bookingServices.updateBookings, hfind, hc, ha]
  · intro hc hown
    simp [bookingsControllers.updateBookings, bookingServices.getBookingById,
      bookingServices.updateBookings, hfind, hc, hown]

/-- Witness for the amended C2: the owning customer cancels the active
booking 1 of `storeC3` on day 2, before its start date on day 5. -/
theorem claim_C2_amended_witness :
    findBooking 1 storeC3.bookings = some bookingActiveC3 ∧
    updateSuccessSpec customerConc updCancelled 1 (day 2) storeC3 bookingActiveC3 :=
  ⟨rfl, claim_C2_amended customerConc updCancelled 1 (day 2) storeC3 bookingActiveC3 rfl⟩

/-- The update service reads nothing from the request body but `status`. -/
theorem updateBookings_status_only (data1 data2 : UpdateData) (bid : Nat) (role : String)
    (today : Nat) (s : Store) (hst : data1.status = data2.status) :
    bookingServices.updateBookings data1 bid role today s =
      bookingServices.updateBookings data2 bid role today s := by
  unfold bookingServices.updateBookings
  rw [hst]

/-- Claim C9: a successful status update only rewrites the target booking
status to the requested terminal value and the referenced vehicle to
`available`; every other field, row and table is untouched, the updated
record is returned, and the non-status request fields are ignored. -/
theorem claim_C9 (u : User) (body : UpdateData) (bid today : Nat) (s : Store)
    (h200 : (bookingsControllers.updateBookings (some u) body bid today s).1.statusCode = 200) :
    updateFrameSpec u body bid today s := by
  cases hf : bookingServices.getBookingById bid s with
  | none =>
    exfalso
    simp [bookingsControllers.updateBookings, hf] at h200
  | some booking =>
    by_cases hg : (u.role == "customer" && booking.customer_id != u.uid) = true
    · exfalso
      simp [bookingsControllers.updateBookings, hf, hg] at h200
    · cases hsvc : bookingServices.updateBookings body bid u.role today s with
      | error msg =>
        exfalso
        simp [bookingsControllers.updateBookings, hf, hg, hsvc] at h200
      | ok pair =>
        obtain ⟨b1, s1⟩ := pair
        have hctrl : bookingsControllers.updateBookings (some u) body bid today s =
            ({ statusCode := 200, success := true, message := "Booking updated successfully",
               data := some b1 }, s1) := by
          simp [bookingsControllers.updateBookings, hf, hg, hsvc]
        obtain ⟨bk, hfb, hcase⟩ := updateBookings_ok_inv body bid u.role today s b1 s1 hsvc
        rcases hcase with ⟨hrole, hst, hdt, hb1, hs1⟩ | ⟨hrole, hst, hb1, hs1⟩
        · refine ⟨bk, "cancelled", hfb, hst, Or.inl rfl, ?_, ?_, ?_, ?_, ?_, ?_⟩
          · rw [hctrl, hb1]
          · rw [hctrl, hs1]
          · rw [hctrl, hs1]
          · rw [hctrl, hs1]
          · rw [hctrl, hs1]
          · intro body2 hstEq
            have hsvc2 : bookingServices.updateBookings body2 bid u.role today s =
                bookingServices.updateBookings body bid u.role today s :=
              updateBookings_status_only body2 body bid u.role today s hstEq
            simp [bookingsControllers.updateBookings, hf, hg, hsvc2]
        · refine ⟨bk, "returned", hfb, hst, Or.inr rfl, ?_, ?_, ?_, ?_, ?_, ?_⟩
          · rw [hctrl, hb1]
          · rw [hctrl, hs1]
          · rw [hctrl, hs1]
          · rw [hctrl, hs1]
          · rw [hctrl, hs1]
          · intro body2 hstEq
            have hsvc2 : bookingServices.updateBookings body2 bid u.role today s =
                bookingServices.updateBookings body bid u.role today s :=
              updateBookings_status_only body2 body bid u.role today s hstEq
            simp [bookingsControllers.updateBookings, hf, hg, hsvc2]

/-- Witness for C9: the owning customer cancels booking 1 of `storeC3`. -/
theorem claim_C9_witness :
    (bookingsControllers.updateBookings (some customerConc) updCancelled 1 (day 2)
      storeC3).1.statusCode = 200 ∧
    updateFrameSpec customerConc updCancelled 1 (day 2) storeC3 :=
  ⟨by decide, claim_C9 customerConc updCancelled 1 (day 2) storeC3 (by decide)⟩

/-- Appending one booking changes the active count of a vehicle by its own
contribution. -/
theorem activeCountFor_append (x : Nat) (l : List Booking) (b : Booking) :
    activeCountFor x (l ++ [b]) =
      activeCountFor x l +
        (if b.vehicle_id == x && b.status == "active" then 1 else 0) := by
  unfold activeCountFor
  rw [List.filter_append, List.length_append]
  congr 1
  cases hp : (b.vehicle_id == x && b.status == "active") <;> simp [hp]

/-- A successful create preserves the availability invariant. -/
theorem createBookings_preserves_inv (data : CreateData) (s : Store) (b : Booking)
    (s1 : Store) (hinv : availabilityInvariant s)
    (hok : bookingServices.createBookings data s = Except.ok (b, s1)) :
    availabilityInvariant s1 := by
  obtain ⟨cid, vid, rs, re, vehicle, hc, hv, hrs, hre, hlt, hveh, havail, hb, hs1⟩ :=
    createBookings_ok_inv data s b s1 hok
  have hbvid : b.vehicle_id = vid := by rw [hb]
  have hbact : b.status = "active" := by rw [hb]
  rw [hs1]
  intro v1 hv1
  unfold setVehicleAvailability at hv1
  obtain ⟨v0, hv0mem, hv0eq⟩ := List.mem_map.mp hv1
  subst hv0eq
  by_cases hx : v0.vid = vid
  · rw [if_pos (by simp [hx])]
    constructor
    · intro _
      rfl
    · intro h0
      exfalso
      rw [activeCountFor_append] at h0
      rw [hbvid, hbact] at h0
      have hxx : (vid == v0.vid) = true := by simp [hx]
      rw [hxx] at h0
      simp at h0
  · rw [if_neg (by simp [hx])]
    have hxx : (b.vehicle_id == v0.vid) = false := by
      rw [hbvid]
      exact beq_eq_false_iff_ne.mpr (fun he => hx he.symm)
    have hceq : activeCountFor v0.vid (s.bookings ++ [b]) =
        activeCountFor v0.vid s.bookings := by
      rw [activeCountFor_append, hxx]
      simp
    show (activeCountFor v0.vid (s.bookings ++ [b]) = 1 → _) ∧
      (activeCountFor v0.vid (s.bookings ++ [b]) = 0 → _)
    rw [hceq]
    exact hinv v0 hv0mem

/-- The active count of a vehicle after the sweep counts the active bookings
whose end date has not yet passed. -/
theorem activeCountFor_sweep (today x : Nat) (s : Store) :
    activeCountFor x (bookingServices.autoReturnExpiredBookings today s).bookings =
      (s.bookings.filter (fun b =>
        b.vehicle_id == x && b.status == "active" &&
          !(decide (b.rent_end_date < today)))).length := by
  rw [sweep_bookings]
  unfold activeCountFor
  rw [List.filter_map, List.length_map]
  congr 1
  apply List.filter_congr
  intro b _
  cases h1 : (b.status == "active") <;> cases h2 : (decide (b.rent_end_date < today)) <;>
    simp [returnIfExpired, isExpiredActive, Function.comp, h1, h2]

/-- The sweep preserves the availability invariant on stores where every
vehicle carries at most one active booking. -/
theorem sweep_preserves_inv (today : Nat) (s : Store)
    (hinv : availabilityInvariant s) (hone : atMostOneActive s) :
    availabilityInvariant (bookingServices.autoReturnExpiredBookings today s) := by
  intro v1 hv1
  rw [sweep_vehicles] at hv1
  obtain ⟨v0, hv0mem, hv0eq⟩ := List.mem_map.mp hv1
  subst hv0eq
  by_cases hmem : v0.vid ∈ expiredVehicleIdsOf today s
  · obtain ⟨bstar, hbmem, hbact, hbexp, hbvid⟩ :=
      (mem_expiredVehicleIdsOf today s v0.vid).mp hmem
    have hbf : bstar ∈ s.bookings.filter
        (fun b => b.vehicle_id == v0.vid && b.status == "active") := by
      rw [List.mem_filter]
      exact ⟨hbmem, by simp [hbvid, hbact]⟩
    have hge : 0 < activeCountFor v0.vid s.bookings :=
      List.length_pos.mpr (fun hnil => by rw [hnil] at hbf; cases hbf)
    have hle := hone v0 hv0mem
    have hcount1 : activeCountFor v0.vid s.bookings = 1 := by omega
    obtain ⟨a, ha⟩ := List.length_eq_one.mp hcount1
    have hastar : bstar = a := by
      rw [ha] at hbf
      simpa using hbf
    have hnew : activeCountFor v0.vid
        (bookingServices.autoReturnExpiredBookings today s).bookings = 0 := by
      rw [activeCountFor_sweep]
      have hsplit : s.bookings.filter (fun b =>
          b.vehicle_id == v0.vid && b.status == "active" &&
            !(decide (b.rent_end_date < today))) =
          (s.bookings.filter (fun b => b.vehicle_id == v0.vid && b.status == "active")).filter
            (fun b => !(decide (b.rent_end_date < today))) := by
        rw [List.filter_filter]
        apply List.filter_congr
        intro b _
        exact Bool.and_comm _ _
      rw [hsplit, ha, ← hastar]
      simp [hbexp]
    rw [if_pos hmem]
    constructor
    · intro h1
      exact absurd (hnew.symm.trans h1) (by omega)
    · intro _
      rfl
  · rw [if_neg hmem]
    have hceq : activeCountFor v0.vid
        (bookingServices.autoReturnExpiredBookings today s).bookings =
        activeCountFor v0.vid s.bookings := by
      rw [activeCountFor_sweep]
      unfold activeCountFor
      congr 1
      apply List.filter_congr
      intro b hbmem
      by_cases hvx : b.vehicle_id = v0.vid
      · by_cases hact : b.status = "active"
        · have hnexp : ¬ (b.rent_end_date < today) := fun hexp =>
            hmem ((mem_expiredVehicleIdsOf today s v0.vid).mpr ⟨b, hbmem, hact, hexp, hvx⟩)
          simp [hvx, hact, hnexp]
        · simp [hact]
      · simp [hvx]
    rw [hceq]
    exact hinv v0 hv0mem

/-- Under primary-key integrity, every row carrying the looked-up id is the
row the lookup returned. -/
theorem bid_unique_row (l : List Booking) (bid : Nat) (b : Booking)
    (hfind : findBooking bid l = some b)
    (huniq : List.Pairwise (fun a c => a.bid ≠ c.bid) l) :
    ∀ c ∈ l, c.bid = bid → c = b := by
  obtain ⟨hbmem, hbbid⟩ := findBooking_some bid l b hfind
  intro c hcmem hcbid
  by_contra hne
  have hsymm : Symmetric (fun a c : Booking => a.bid ≠ c.bid) := fun a c h => h.symm
  have hr := List.Pairwise.forall hsymm huniq hcmem hbmem hne
  exact hr (hcbid.trans hbbid.symm)

/-- Effect of the terminal status `UPDATE` on per-vehicle active counts. -/
theorem activeCountFor_setBookingStatus (x bid : Nat) (st : String) (l : List Booking)
    (b : Booking) (hfind : findBooking bid l = some b)
    (huniq : List.Pairwise (fun a c => a.bid ≠ c.bid) l)
    (hstna : (st == "active") = false) :
    (b.vehicle_id ≠ x →
      activeCountFor x (setBookingStatus bid st l) = activeCountFor x l) ∧
    (b.vehicle_id = x → b.status = "active" → activeCountFor x l ≤ 1 →
      activeCountFor x (setBookingStatus bid st l) = 0) := by
  obtain ⟨hbmem, hbbid⟩ := findBooking_some bid l b hfind
  have hrow := bid_unique_row l bid b hfind huniq
  constructor
  · intro hne
    unfold activeCountFor setBookingStatus
    rw [List.filter_map, List.length_map]
    congr 1
    apply List.filter_congr
    intro c hcmem
    by_cases hcb : c.bid = bid
    · have hceq : c = b := hrow c hcmem hcb
      subst hceq
      have hxf : (c.vehicle_id == x) = false := beq_eq_false_iff_ne.mpr hne
      simp [Function.comp, hcb, hxf]
    · simp [Function.comp, hcb]
  · intro hvx hact hle
    have hbf : b ∈ l.filter (fun c => c.vehicle_id == x && c.status == "active") := by
      rw [List.mem_filter]
      exact ⟨hbmem, by simp [hvx, hact]⟩
    have hge : 0 < activeCountFor x l :=
      List.length_pos.mpr (fun hnil => by rw [hnil] at hbf; cases hbf)
    have hcount1 : activeCountFor x l = 1 := by omega
    obtain ⟨a, ha⟩ := List.length_eq_one.mp hcount1
    have hba : b = a := by
      rw [ha] at hbf
      simpa using hbf
    obtain rfl := hba
    unfold activeCountFor setBookingStatus
    rw [List.filter_map, List.length_map, List.length_eq_zero, List.filter_eq_nil_iff]
    intro c hcmem
    by_cases hcb : c.bid = bid
    · have hceq : c = b := hrow c hcmem hcb
      subst hceq
      simp [Function.comp, hcb, hstna]
    · simp only [Function.comp, hcb]
      intro hcond
      have hcf : c ∈ l.filter (fun c => c.vehicle_id == x && c.status == "active") := by
        rw [List.mem_filter]
        refine ⟨hcmem, ?_⟩
        have : (c.bid == bid) = false := beq_eq_false_iff_ne.mpr hcb
        simpa [this] using hcond
      rw [ha] at hcf
      have hcbk : c = b := by simpa using hcf
      exact hcb (by rw [hcbk]; exact hbbid)

/-- A terminal status update of the unique active booking of a vehicle,
together with the accompanying vehicle availability write, preserves the
availability invariant. -/
theorem inv_after_terminal_update (s : Store) (bid : Nat) (st : String) (b : Booking)
    (hinv : availabilityInvariant s) (hone : atMostOneActive s) (huniq : uniqueBids s)
    (hfind : findBooking bid s.bookings = some b) (hact : b.status = "active")
    (hstna : (st == "active") = false) :
    availabilityInvariant
      { s with bookings := setBookingStatus bid st s.bookings,
               vehicles := setVehicleAvailability b.vehicle_id "available" s.vehicles } := by
  intro v1 hv1
  have hv1m : v1 ∈ setVehicleAvailability b.vehicle_id "available" s.vehicles := hv1
  unfold setVehicleAvailability at hv1m
  obtain ⟨v0, hv0mem, hv0eq⟩ := List.mem_map.mp hv1m
  subst hv0eq
  by_cases hx : v0.vid = b.vehicle_id
  · rw [if_pos (by simp [hx])]
    have h0 : activeCountFor v0.vid (setBookingStatus bid st s.bookings) = 0 :=
      (activeCountFor_setBookingStatus v0.vid bid st s.bookings b hfind huniq hstna).2
        hx.symm hact (hone v0 hv0mem)
    constructor
    · intro h1
      exact absurd (h0.symm.trans h1) (by omega)
    · intro _
      rfl
  · rw [if_neg (by simp [hx])]
    have hceq : activeCountFor v0.vid (setBookingStatus bid st s.bookings) =
        activeCountFor v0.vid s.bookings :=
      (activeCountFor_setBookingStatus v0.vid bid st s.bookings b hfind huniq hstna).1
        (fun he => hx he.symm)
    show (activeCountFor v0.vid (setBookingStatus bid st s.bookings) = 1 → _) ∧
      (activeCountFor v0.vid (setBookingStatus bid st s.bookings) = 0 → _)
    rw [hceq]
    exact hinv v0 hv0mem

/-- A status update through the controller preserves the availability
invariant when the target booking is the active one of its vehicle. -/
theorem update_preserves_inv (u : User) (body : UpdateData) (bid today : Nat) (s : Store)
    (b : Booking) (hinv : availabilityInvariant s) (hone : atMostOneActive s)
    (huniq : uniqueBids s) (hfind : findBooking bid s.bookings = some b)
    (hact : b.status = "active") :
    availabilityInvariant (bookingsControllers.updateBookings (some u) body bid today s).2 := by
  cases hf : bookingServices.getBookingById bid s with
  | none =>
    have h2 : (bookingsControllers.updateBookings (some u) body bid today s).2 = s := by
      simp [bookingsControllers.updateBookings, hf]
    rw [h2]
    exact hinv
  | some booking =>
    by_cases hg : (u.role == "customer" && booking.customer_id != u.uid) = true
    · have h2 : (bookingsControllers.updateBookings (some u) body bid today s).2 = s := by
        simp [bookingsControllers.updateBookings, hf, hg]
      rw [h2]
      exact hinv
    · cases hsvc : bookingServices.updateBookings body bid u.role today s with
      | error msg =>
        have h2 : (bookingsControllers.updateBookings (some u) body bid today s).2 = s := by
          simp [bookingsControllers.updateBookings, hf, hg, hsvc]
        rw [h2]
        exact hinv
      | ok pair =>
        obtain ⟨b1, s1⟩ := pair
        have h2 : (bookingsControllers.updateBookings (some u) body bid today s).2 = s1 := by
          simp [bookingsControllers.updateBookings, hf, hg, hsvc]
        rw [h2]
        obtain ⟨bk, hfb, hcase⟩ := updateBookings_ok_inv body bid u.role today s b1 s1 hsvc
        have hbk : bk = b := by
          rw [hfind] at hfb
          injection hfb with h3
          exact h3.symm
        subst hbk
        rcases hcase with ⟨-, -, -, -, hs1⟩ | ⟨-, -, -, hs1⟩
        · rw [hs1]
          exact inv_after_terminal_update s bid "cancelled" bk hinv hone huniq hfind hact
            (by decide)
        · rw [hs1]
          exact inv_after_terminal_update s bid "returned" bk hinv hone huniq hfind hact
            (by decide)

/-- Claim C3 (amended): createBooking always preserves the availability
invariant; the expiry sweep preserves it on stores where every vehicle has
at most one active booking; updateBookingStatus preserves it when the
booking table has unique ids, every vehicle has at most one active booking,
and the targeted booking is currently active.  (The unamended claim fails:
see the counterexample, an update of a terminal booking.) -/
theorem claim_C3_amended :
    (∀ data s b s1, availabilityInvariant s →
      bookingServices.createBookings data s = Except.ok (b, s1) →
      availabilityInvariant s1) ∧
    (∀ today s, availabilityInvariant s → atMostOneActive s →
      availabilityInvariant (bookingServices.autoReturnExpiredBookings today s)) ∧
    (∀ u body bid today s b, availabilityInvariant s → atMostOneActive s → uniqueBids s →
      findBooking bid s.bookings = some b → b.status = "active" →
      availabilityInvariant (bookingsControllers.updateBookings (some u) body bid today s).2) :=
  ⟨fun data s b s1 hinv hok => createBookings_preserves_inv data s b s1 hinv hok,
   fun today s hinv hone => sweep_preserves_inv today s hinv hone,
   fun u body bid today s b hinv hone huniq hfind hact =>
     update_preserves_inv u body bid today s b hinv hone huniq hfind hact⟩

/-- Witness for the amended C3 at concrete inputs: all three operations are
exercised on invariant-satisfying stores. -/
theorem claim_C3_amended_witness :
    availabilityInvariant storeC1booked ∧
    availabilityInvariant (bookingServices.autoReturnExpiredBookings (day 10) storeC1booked) ∧
    availabilityInvariant
      (bookingsControllers.updateBookings (some customerConc) updCancelled 1 (day 2)
        storeC3).2 :=
  ⟨by decide,
   claim_C3_amended.2.1 (day 10) storeC1booked (by decide) (by decide),
   claim_C3_amended.2.2 customerConc updCancelled 1 (day 2) storeC3 bookingActiveC3
     (by decide) (by decide) (by decide) rfl rfl⟩

/-- Sorting by a descending numeric key yields a pairwise descending list. -/
theorem pairwise_mergeSort_key {α : Type} (key : α → Nat) (l : List α) :
    List.Pairwise (fun r1 r2 => key r2 ≤ key r1)
      (l.mergeSort (fun r1 r2 => decide (key r2 ≤ key r1))) := by
  refine List.Pairwise.imp ?_ (List.sorted_mergeSort ?_ ?_ l)
  · intro a b hab
    simpa using hab
  · intro a b c h1 h2
    simp only [decide_eq_true_eq] at h1 h2 ⊢
    omega
  · intro a b
    rcases Nat.le_total (key b) (key a) with h | h <;> simp [h]

/-- Membership in the admin join: a row appears exactly for the bookings
whose customer and vehicle rows resolve. -/
theorem adminJoin_mem (t : Store) (r : AdminRow) :
    r ∈ (t.bookings.filterMap (fun b =>
      match findUser b.customer_id t.users, findVehicle b.vehicle_id t.vehicles with
      | some u, some v => some (adminRowOf b u v)
      | _, _ => none)) ↔
    ∃ b ∈ t.bookings, ∃ usr veh, findUser b.customer_id t.users = some usr ∧
      findVehicle b.vehicle_id t.vehicles = some veh ∧ r = adminRowOf b usr veh := by
  rw [List.mem_filterMap]
  constructor
  · rintro ⟨b, hb, hsome⟩
    cases hu : findUser b.customer_id t.users with
    | none => rw [hu] at hsome; simp at hsome
    | some usr =>
      cases hv : findVehicle b.vehicle_id t.vehicles with
      | none => rw [hu, hv] at hsome; simp at hsome
      | some veh =>
        rw [hu, hv] at hsome
        simp at hsome
        exact ⟨b, hb, usr, veh, hu, hv, hsome.symm⟩
  · rintro ⟨b, hb, usr, veh, hu, hv, hr⟩
    refine ⟨b, hb, ?_⟩
    simp [hu, hv, hr]

/-- Membership in the customer join: a row appears exactly for the bookings
of the given customer whose vehicle row resolves. -/
theorem customerJoin_mem (t : Store) (cid : Nat) (r : CustomerRow) :
    r ∈ ((t.bookings.filter (fun b => b.customer_id == cid)).filterMap (fun b =>
      match findVehicle b.vehicle_id t.vehicles with
      | some v => some (customerRowOf b v)
      | none => none)) ↔
    ∃ b ∈ t.bookings, b.customer_id = cid ∧ ∃ veh,
      findVehicle b.vehicle_id t.vehicles = some veh ∧ r = customerRowOf b veh := by
  rw [List.mem_filterMap]
  constructor
  · rintro ⟨b, hb, hsome⟩
    rw [List.mem_filter] at hb
    obtain ⟨hbmem, hbc⟩ := hb
    cases hv : findVehicle b.vehicle_id t.vehicles with
    | none => rw [hv] at hsome; simp at hsome
    | some veh =>
      rw [hv] at hsome
      simp at hsome
      exact ⟨b, hbmem, by simpa using hbc, veh, hv, hsome.symm⟩
  · rintro ⟨b, hb, hbc, veh, hv, hr⟩
    refine ⟨b, ?_, ?_⟩
    · rw [List.mem_filter]
      exact ⟨hb, by simp [hbc]⟩
    · simp [hv, hr]

/-- Claim C5: listing runs the expiry sweep first and answers over the swept
store; an admin receives exactly the join rows of all bookings with their
customer and vehicle snapshots; a customer receives exactly the join rows of
their own bookings; both lists are ordered by descending booking id.  The
hypothesis is referential integrity of the swept store, guaranteed by the
`REFERENCES` constraints of the bookings table. -/
theorem claim_C5 (u : User) (today : Nat) (s : Store)
    (hres : refsResolve (bookingServices.autoReturnExpiredBookings today s)) :
    listSpec u today s := by
  unfold listSpec
  refine ⟨?_, ?_, ?_⟩
  · by_cases hc : (u.role == "admin") = true <;>
      simp [bookingsControllers.getBookings, bookingServices.getAllBookings,
        bookingServices.getBookingsByCustomer, hc]
  · intro hadmin
    have hcb : (u.role == "admin") = true := by simp [hadmin]
    refine ⟨(bookingServices.getAllBookings today s).1, ?_, ?_, ?_, ?_⟩
    · simp [bookingsControllers.getBookings, hcb]
    · exact pairwise_mergeSort_key AdminRow.id _
    · intro r
      exact Iff.trans List.mem_mergeSort
        (adminJoin_mem (bookingServices.autoReturnExpiredBookings today s) r)
    · intro b hb
      obtain ⟨hu, hv⟩ := hres b hb
      obtain ⟨usr, husr⟩ := Option.isSome_iff_exists.mp hu
      obtain ⟨veh, hveh⟩ := Option.isSome_iff_exists.mp hv
      refine ⟨usr, veh, husr, hveh, ?_⟩
      exact List.mem_mergeSort.mpr
        ((adminJoin_mem (bookingServices.autoReturnExpiredBookings today s)
          (adminRowOf b usr veh)).mpr ⟨b, hb, usr, veh, husr, hveh, rfl⟩)
  · intro hcust
    have hcb : (u.role == "admin") = false := by simp [hcust]
    refine ⟨(bookingServices.getBookingsByCustomer u.uid today s).1, ?_, ?_, ?_, ?_⟩
    · simp [bookingsControllers.getBookings, hcb]
    · exact pairwise_mergeSort_key CustomerRow.id _
    · intro r
      exact Iff.trans List.mem_mergeSort
        (customerJoin_mem (bookingServices.autoReturnExpiredBookings today s) u.uid r)
    · intro b hb hbc
      obtain ⟨hu, hv⟩ := hres b hb
      obtain ⟨veh, hveh⟩ := Option.isSome_iff_exists.mp hv
      refine ⟨veh, hveh, ?_⟩
      exact List.mem_mergeSort.mpr
        ((customerJoin_mem (bookingServices.autoReturnExpiredBookings today s) u.uid
          (customerRowOf b veh)).mpr ⟨b, hb, hbc, veh, hveh, rfl⟩)

/-- Witness for C5 at a concrete store, for both an admin and a customer. -/
theorem claim_C5_witness :
    refsResolve (bookingServices.autoReturnExpiredBookings (day 10) storeC1) ∧
    listSpec adminConc (day 10) storeC1 ∧ listSpec customerConc (day 10) storeC1 :=
  ⟨by decide, claim_C5 adminConc (day 10) storeC1 (by decide),
   claim_C5 customerConc (day 10) storeC1 (by decide)⟩
